import Mathlib

/-!
Verification of the batch ASR evaluation pipeline (`scripts/evaluate.py`).

Shallow embedding conventions:
* Python strings are `List Char` (`Str`).
* Python floats are idealized as `ℚ` where the computation stays finite; a value
  that may be the float `nan` is an `NF` (`NF.nan` or `NF.fin q`).  The pipeline
  produces no infinities for finite inputs, so `NF` has no infinity constructor.
* External library calls (soundfile, librosa, scipy, torch/vosk model inference,
  matplotlib) are oracles gathered in an `Env` record; fallible calls return
  `Except Str _`, mirroring Python exceptions.  `editdistance.eval` is embedded
  as the standard Levenshtein distance, which is that library's documented and
  only behaviour.
* Mutation of Python locals becomes explicit value threading; the `logs` list
  that Python mutates in place is threaded as an explicit accumulator.
-/

namespace Evaluate

/-- Python strings, as their character sequences. -/
abbrev Str := List Char

/-- The whitespace characters recognized by Python's `str.split()` /
`str.strip()` for ASCII text. -/
def pySpace (c : Char) : Bool :=
  c = ' ' || c = '\t' || c = '\n' || c = '\x0d' || c = '\x0b' || c = '\x0c'

/-- `str.lower()` (per character, as for ASCII text). -/
def pyLower (s : Str) : Str := s.map Char.toLower

/-- `str.strip()`: drop leading and trailing whitespace. -/
def pyStrip (s : Str) : Str :=
  ((s.dropWhile pySpace).reverse.dropWhile pySpace).reverse

/-- Helper for `str.split()` (no separator): accumulate the current word
(reversed in `acc`) while scanning. -/
def splitWsAux : Str → Str → List Str
  | [], acc => if acc = [] then [] else [acc.reverse]
  | c :: rest, acc =>
    if pySpace c then
      if acc = [] then splitWsAux rest []
      else acc.reverse :: splitWsAux rest []
    else splitWsAux rest (c :: acc)

/-- Python `str.split()` with no argument: split on whitespace runs,
discarding empty pieces. -/
def splitWs (s : Str) : List Str := splitWsAux s []

/-- `normalize(text)` from evaluate.py:
`" ".join(str(text).lower().strip().split())`. -/
def normalize (text : Str) : Str :=
  List.intercalate [' '] (splitWs (pyStrip (pyLower text)))

/-- Levenshtein edit distance; the semantics of `editdistance.eval`. -/
def lev [DecidableEq α] : List α → List α → Nat
  | [], ys => ys.length
  | x :: xs, [] => (x :: xs).length
  | x :: xs, y :: ys =>
    if x = y then lev xs ys
    else 1 + min (lev xs ys) (min (lev (x :: xs) ys) (lev xs (y :: ys)))
termination_by a b => a.length + b.length
decreasing_by all_goals simp_arith

/-- `cer(ref, hyp)` from evaluate.py. -/
def cer (ref hyp : Str) : ℚ :=
  let ref_n := normalize ref
  let hyp_n := normalize hyp
  if ref_n = [] then 0
  else (lev ref_n hyp_n : ℚ) / ((max 1 ref_n.length : ℕ) : ℚ)

/-- `wer(ref, hyp)` from evaluate.py. -/
def wer (ref hyp : Str) : ℚ :=
  let ref_w := splitWs (normalize ref)
  let hyp_w := splitWs (normalize hyp)
  if ref_w = [] then 0
  else (lev ref_w hyp_w : ℚ) / ((max 1 ref_w.length : ℕ) : ℚ)

instance [DecidableEq ε] [DecidableEq α] : DecidableEq (Except ε α) := fun x y =>
  match x, y with
  | .ok a, .ok b =>
    match decEq a b with
    | isTrue h => isTrue (by rw [h])
    | isFalse h => isFalse (by intro he; cases he; exact h rfl)
  | .error a, .error b =>
    match decEq a b with
    | isTrue h => isTrue (by rw [h])
    | isFalse h => isFalse (by intro he; cases he; exact h rfl)
  | .ok _, .error _ => isFalse (by intro he; cases he)
  | .error _, .ok _ => isFalse (by intro he; cases he)

/-- A float value as produced by numpy: `nan` or a finite value (the pipeline
produces no infinities for finite inputs, so none is modelled). -/
inductive NF
  | nan
  | fin (q : ℚ)
deriving DecidableEq

/-- `fillna(0.0)` applied to one float cell. -/
def NF.fillna0 : NF → ℚ
  | .nan => 0
  | .fin q => q

/-- `np.mean` of a 1-D array: NaN (with a suppressed warning) on an empty
array, the arithmetic mean otherwise. -/
def npMean (l : List ℚ) : NF :=
  if l = [] then .nan else .fin (l.sum / (l.length : ℚ))

/-- The decoded array returned by `sf.read`: 1-D (mono) or 2-D with one row
per frame and one column per channel. -/
inductive AudioData
  | mono (samples : List ℚ)
  | multi (frames : List (List ℚ))
deriving DecidableEq

/-- Digital filter coefficients `(b, a)` as returned by `scipy.signal.butter`;
the pipeline never inspects them, only hands them to `lfilter`. -/
abbrev Filt := List ℚ × List ℚ

/-- A float-typed metadata cell as seen through Python `float(...)`: the
conversion either raises (`error`) or yields a float, possibly NaN. -/
abbrev FloatCell := Except Unit NF

/-- One row of `metadata.csv` (cells already `str(...)`-converted where the
code does so); `idx` is the row's pandas dataframe index, preserved by the
condition filter and reported by `iterrows`. `distance_m`/`text` carry the
cell values used when the corresponding column exists. -/
structure MetaRow where
  idx : Nat
  utt_id : Str
  relpath : Str
  condition : Str
  text : Str
  distance_m : Option FloatCell

/-- The parsed `metadata.csv`. -/
structure DataFrame where
  columns : List Str
  rows : List MetaRow

/-- One record of `detailedResults` (after `fillna(0.0)`, so every numeric
field is a finite rational). -/
structure ERow where
  utt_id : Str
  distance_m : ℚ
  CER : ℚ
  WER : ℚ
  RMS : ℚ
  centroid : ℚ
  rolloff : ℚ
deriving DecidableEq

/-- The per-row dict as appended to `rows`, before `fillna(0.0)`: the fields
built from numpy/librosa values may be NaN. -/
structure ERowRaw where
  utt_id : Str
  distance_m : NF
  CER : ℚ
  WER : ℚ
  RMS : NF
  centroid : NF
  rolloff : NF

/-- `pd.DataFrame(rows).fillna(0.0)` on one record. -/
def fillRow (r : ERowRaw) : ERow :=
  { utt_id := r.utt_id, distance_m := r.distance_m.fillna0,
    CER := r.CER, WER := r.WER, RMS := r.RMS.fillna0,
    centroid := r.centroid.fillna0, rolloff := r.rolloff.fillna0 }

/-- One record of `summary`. -/
structure SummaryRow where
  distance_m : ℚ
  CER : ℚ
  WER : ℚ
  RMS : ℚ
  centroid : ℚ
  rolloff : ℚ
deriving DecidableEq

/-- External collaborators of evaluate.py, as oracles.  Fallible library calls
return `Except Str _` (the `Str` is the exception text); `metadata` is `none`
when `os.path.exists(meta_path)` is false, otherwise the parsed dataframe. -/
structure Env where
  sfRead : Str → Except Str (AudioData × Nat)
  resample : List ℚ → Nat → Except Str (List ℚ)
  butter : Nat → ℚ → ℚ → Except Str Filt
  lfilter : Filt → List ℚ → Except Str (List ℚ)
  centroid : List ℚ → Nat → NF
  rolloff : List ℚ → Nat → NF
  sqrtQ : ℚ → ℚ
  asrWhisper : List ℚ → Nat → Except Str Str
  asrWav2vec2 : List ℚ → Nat → Except Str Str
  asrVosk : List ℚ → Nat → Except Str Str
  device : Str
  metadata : Option DataFrame
  renderPlot : List SummaryRow → Except Str Str

/-- `TARGET_SR = 16000`. -/
def TARGET_SR : Nat := 16000

/-- `np.zeros(TARGET_SR, dtype=np.float32)`: one second of silence. -/
def silence : List ℚ := List.replicate TARGET_SR 0

/-- `if y.ndim > 1: y = y.mean(axis=1)` — channel averaging (frames are
rectangular, one mean per frame). -/
def monoOf : AudioData → List ℚ
  | .mono y => y
  | .multi frames => frames.map (fun f => f.sum / (f.length : ℚ))

/-- The read stage of `load_audio`: `sf.read` with its `try/except` (the
except branch substitutes one second of silence at the target rate and logs)
followed by channel averaging. -/
def readStage (env : Env) (path : Str) (logs : List Str) :
    (List ℚ × Nat) × List Str :=
  match env.sfRead path with
  | .ok (d, sr0) => ((monoOf d, sr0), logs)
  | .error ex =>
    ((silence, TARGET_SR),
      logs ++ ["[load_audio] failed: ".toList ++ path ++ " -> ".toList ++ ex])

/-- `load_audio(path, logs)` from evaluate.py; returns `(y, sr)` and the
updated log list. -/
def load_audio (env : Env) (path : Str) (logs : List Str) :
    (List ℚ × Nat) × List Str :=
  let st := readStage env path logs
  let y0 := st.1.1
  let sr := st.1.2
  let logs := st.2
  let y := if y0 = [] then silence else y0
  if sr ≠ TARGET_SR then
    match env.resample y sr with
    | .ok y2 => ((y2, TARGET_SR), logs)
    | .error ex =>
      ((silence, TARGET_SR),
        logs ++ ["[resample] failed (sr=".toList ++ (Nat.repr sr).toList
                   ++ "): ".toList ++ ex])
  else ((y, sr), logs)

/-- `rms(y) = float(np.sqrt(np.mean(y**2) + 1e-12))`; NaN when `y` is empty
(mean of an empty array is NaN, and NaN propagates through the sum and
square root). -/
def rms (env : Env) (y : List ℚ) : NF :=
  match npMean (y.map (fun v => v ^ 2)) with
  | .nan => .nan
  | .fin m => .fin (env.sqrtQ (m + 1 / 1000000000000))

/-- `spectral_features(y, sr)` from evaluate.py. -/
def spectral_features (env : Env) (y : List ℚ) (sr : Nat) : NF × NF :=
  if y = [] then (.fin 0, .fin 0)
  else (env.centroid y sr, env.rolloff y sr)

/-- `butter_bandpass(lowcut, highcut, fs, order=4)` from evaluate.py. -/
def butter_bandpass (env : Env) (lowcut highcut fs : ℚ) : Except Str Filt :=
  let nyq := (1 / 2) * fs
  let low := max (lowcut / nyq) (1 / 1000)
  let high := min (highcut / nyq) (999 / 1000)
  env.butter 4 low high

/-- `apply_eq_filter(y, lowcut, highcut, gain) = y + gain * lfilter(b, a, y)`;
the numpy elementwise addition broadcasts only when lengths agree, otherwise
it raises. -/
def apply_eq_filter (env : Env) (y : List ℚ) (lowcut highcut gain : ℚ) :
    Except Str (List ℚ) := do
  let ba ← butter_bandpass env lowcut highcut (TARGET_SR : ℚ)
  let f ← env.lfilter ba y
  if f.length = y.length then
    pure (List.zipWith (fun a b => a + gain * b) y f)
  else .error "operands could not be broadcast together".toList

/-- `apply_eq(y, mode)` from evaluate.py: two additive band filters per
recognized profile, identity for any other mode. -/
def apply_eq (env : Env) (y : List ℚ) (mode : Str) : Except Str (List ℚ) :=
  if mode = "rock".toList then do
    let y ← apply_eq_filter env y 100 300 (7 / 10)
    apply_eq_filter env y 4000 8000 (5 / 10)
  else if mode = "pop".toList then do
    let y ← apply_eq_filter env y 200 400 (5 / 10)
    apply_eq_filter env y 3000 6000 (4 / 10)
  else if mode = "jazz".toList then do
    let y ← apply_eq_filter env y 250 500 (5 / 10)
    apply_eq_filter env y 2000 5000 (3 / 10)
  else if mode = "classic".toList then do
    let y ← apply_eq_filter env y 100 400 (4 / 10)
    apply_eq_filter env y 2000 6000 (2 / 10)
  else pure y

/-- posix `os.path.join(a, b)`. -/
def joinPath (a b : Str) : Str :=
  if b.head? = some '/' then b
  else if a = [] ∨ a.getLast? = some '/' then a ++ b
  else a ++ '/' :: b

/-- The rows of condition `"human"` (reference condition). -/
def humanRows (df : DataFrame) : List MetaRow :=
  df.rows.filter (fun r => decide (r.condition = "human".toList))

/-- `refs = df[df["condition"]=="human"].set_index("utt_id")["text"].to_dict()`
followed by `refs.get(utt_id, "")`: for duplicate `utt_id` the last human row
wins; a missing key yields `""`. -/
def refsGet (df : DataFrame) (u : Str) : Str :=
  match (humanRows df).reverse.find? (fun r => decide (r.utt_id = u)) with
  | some r => r.text
  | none => []

/-- Python `f"{b}"` for a bool. -/
def pyBool (b : Bool) : Str := if b then "True".toList else "False".toList

/-- `"\n".join(logs)`. -/
def joinLogs (logs : List Str) : Str := List.intercalate ['\n'] logs

/-- The EQ stage of the row loop: `if do_eq and eq_mode and eq_mode != "none"`
with its `try/except` — on failure the unfiltered waveform is kept and the
failure is logged. -/
def eqStage (env : Env) (eq_mode : Str) (do_eq : Bool) (utt_id : Str)
    (y : List ℚ) (logs : List Str) : List ℚ × List Str :=
  if do_eq ∧ eq_mode ≠ [] ∧ eq_mode ≠ "none".toList then
    match apply_eq env y eq_mode with
    | .ok y2 => (y2, logs)
    | .error ex =>
      (y, logs ++ ["[EQ] failed for ".toList ++ utt_id ++ ": ".toList ++ ex])
  else (y, logs)

/-- The ASR dispatch of the row loop with its `try/except`: a raising backend
is logged and the hypothesis defaults to `""`; an unrecognized backend id is
logged and the hypothesis stays `""`. -/
def asrStage (env : Env) (asr_backend utt_id : Str) (y : List ℚ) (sr : Nat)
    (logs : List Str) : Str × List Str :=
  if asr_backend = "whisper".toList then
    match env.asrWhisper y sr with
    | .ok h => (h, logs)
    | .error ex =>
      ([], logs ++ ["[ASR] failed for ".toList ++ utt_id ++ ": ".toList ++ ex])
  else if asr_backend = "wav2vec2".toList then
    match env.asrWav2vec2 y sr with
    | .ok h => (h, logs)
    | .error ex =>
      ([], logs ++ ["[ASR] failed for ".toList ++ utt_id ++ ": ".toList ++ ex])
  else if asr_backend = "vosk".toList then
    match env.asrVosk y sr with
    | .ok h => (h, logs)
    | .error ex =>
      ([], logs ++ ["[ASR] failed for ".toList ++ utt_id ++ ": ".toList ++ ex])
  else ([], logs ++ ["[ASR] Unknown backend: ".toList ++ asr_backend])

/-- `dist = r.get("distance_m", 0.0)` followed by `float(dist)` with its
`try/except` defaulting to `0.0`. -/
def distOf (r : MetaRow) : NF :=
  match r.distance_m with
  | none => .fin 0
  | some (.ok v) => v
  | some (.error _) => .fin 0

/-- One pass of the per-row loop body of `run_evaluation` (everything between
`for idx, r in subset.iterrows()` and `rows.append(...)`), producing the
appended record and the updated log list. -/
def processRow (env : Env) (data_root : Str) (refs : Str → Str)
    (asr_backend eq_mode : Str) (do_eq : Bool) (r : MetaRow) (logs : List Str) :
    ERowRaw × List Str :=
  let utt_id := r.utt_id
  let abspath := joinPath data_root r.relpath
  let la := load_audio env abspath logs
  let sr := la.1.2
  let eqr := eqStage env eq_mode do_eq utt_id la.1.1 la.2
  let y := eqr.1
  let ref := refs utt_id
  let ar := asrStage env asr_backend utt_id y sr eqr.2
  let hyp := ar.1
  let cro := spectral_features env y sr
  ({ utt_id := utt_id ++ "_".toList ++ (Nat.repr r.idx).toList,
     distance_m := distOf r, CER := cer ref hyp, WER := wer ref hyp,
     RMS := rms env y, centroid := cro.1, rolloff := cro.2 }, ar.2)

/-- Arithmetic mean of a nonempty column. -/
def meanQ (l : List ℚ) : ℚ := l.sum / (l.length : ℚ)

/-- `df_det.groupby("distance_m")[num_cols].mean().reset_index()`: one row per
distinct `distance_m`, keys ascending (pandas `groupby(sort=True)`),
arithmetic mean of each numeric column over the group. -/
def summarize (det : List ERow) : List SummaryRow :=
  let keys := List.insertionSort (· ≤ ·) (det.map (·.distance_m)).dedup
  keys.map (fun d =>
    let g := det.filter (fun r => decide (r.distance_m = d))
    { distance_m := d, CER := meanQ (g.map (·.CER)), WER := meanQ (g.map (·.WER)),
      RMS := meanQ (g.map (·.RMS)), centroid := meanQ (g.map (·.centroid)),
      rolloff := meanQ (g.map (·.rolloff)) })

/-- `refs` as used in the row loop: the lookup built from the human rows when
a `text` column exists, else the empty dict (every `get` yields `""`). -/
def refsFun (df : DataFrame) : Str → Str :=
  fun u => if "text".toList ∈ df.columns then refsGet df u else []

/-- The two response shapes of `run_evaluation`: the `{error, logs}` dict and
the full report dict (which has no `error` key). -/
inductive RunResult
  | err (error : Str) (logs : Str)
  | report (backend : Str) (detailedResults : List ERow)
      (summary : List SummaryRow) (plotData : Str) (logs : Str)

/-- The `error` field of the response, when present. -/
def RunResult.errorOf : RunResult → Option Str
  | .err e _ => some e
  | .report _ _ _ _ _ => none

/-- The `detailedResults` field of the response, when present. -/
def RunResult.detailed : RunResult → Option (List ERow)
  | .err _ _ => none
  | .report _ d _ _ _ => some d

/-- The `summary` field of the response, when present. -/
def RunResult.summaryOf : RunResult → Option (List SummaryRow)
  | .err _ _ => none
  | .report _ _ s _ _ => some s

/-- The `plotData` field of the response, when present. -/
def RunResult.plotOf : RunResult → Option Str
  | .err _ _ => none
  | .report _ _ _ p _ => some p

/-- The `backend` field of the response, when present. -/
def RunResult.backendOf : RunResult → Option Str
  | .err _ _ => none
  | .report b _ _ _ _ => some b

/-- The `logs` field (present in both response shapes). -/
def RunResult.logsOf : RunResult → Str
  | .err _ l => l
  | .report _ _ _ _ l => l

/-- `run_evaluation(asr_backend, data_root, eq_mode, do_eq, condition)` from
evaluate.py (f-string log lines flattened to concatenation). -/
def run_evaluation (env : Env) (asr_backend data_root eq_mode : Str)
    (do_eq : Bool) (condition : Str) : RunResult :=
  let logs : List Str :=
    ["[config] backend=".toList ++ asr_backend ++ " condition=".toList ++ condition
       ++ " doEq=".toList ++ pyBool do_eq ++ " eqMode=".toList ++ eq_mode,
     "[config] data_root=".toList ++ data_root ++ " DEVICE=".toList ++ env.device
       ++ " TARGET_SR=".toList ++ (Nat.repr TARGET_SR).toList,
     "backend=".toList ++ asr_backend ++ ", condition=".toList ++ condition
       ++ ", doEq=".toList ++ pyBool do_eq ++ ", eqMode=".toList ++ eq_mode,
     "data_root=".toList ++ data_root]
  let meta_path := joinPath data_root "metadata.csv".toList
  match env.metadata with
  | none =>
    .err ("metadata.csv not found at: ".toList ++ meta_path) (joinLogs logs)
  | some df =>
    if "relpath".toList ∉ df.columns ∨ "utt_id".toList ∉ df.columns
        ∨ "condition".toList ∉ df.columns then
      .err ("metadata.csv missing required columns. Found: ".toList
              ++ List.intercalate ", ".toList df.columns)
        (joinLogs logs)
    else
      let logs := logs ++
        [if "text".toList ∈ df.columns then
           "[refs] human refs count=".toList
             ++ (Nat.repr ((humanRows df).map (·.utt_id)).dedup.length).toList
         else "[refs] WARNING: column 'text' not found, CER/WER will be 0".toList]
      let subset := df.rows.filter (fun r => decide (r.condition = condition))
      let logs := logs ++
        ["[subset] rows=".toList ++ (Nat.repr subset.length).toList
           ++ " for condition=".toList ++ condition]
      if subset.length = 0 then
        .report asr_backend [] [] []
          (joinLogs (logs ++
            ["[subset] EMPTY: check condition names in metadata.csv".toList]))
      else
        let stepped := subset.foldl
          (fun (acc : List ERowRaw × List Str) r =>
            ((acc.1 ++
                [(processRow env data_root (refsFun df) asr_backend eq_mode
                    do_eq r acc.2).1]),
             (processRow env data_root (refsFun df) asr_backend eq_mode
                do_eq r acc.2).2))
          (([] : List ERowRaw), logs)
        let det := stepped.1.map fillRow
        let summ := summarize det
        let plotStep :=
          match env.renderPlot summ with
          | .ok s => (s, stepped.2)
          | .error ex => (([] : Str), stepped.2 ++ ["[plot] failed: ".toList ++ ex])
        .report asr_backend det summ plotStep.1 (joinLogs plotStep.2)

/-- A concrete environment used to instantiate the theorems below on closed
inputs: reading always fails, resampling and filtering are identities, the
whisper backend transcribes everything as "hello", the rolloff feature
computes to NaN. -/
def sampleEnv : Env where
  sfRead := fun _ => .error "No such file or directory".toList
  resample := fun y _ => .ok y
  butter := fun _ _ _ => .ok ([], [])
  lfilter := fun _ y => .ok y
  centroid := fun _ _ => .fin 5
  rolloff := fun _ _ => .nan
  sqrtQ := fun q => q
  asrWhisper := fun _ _ => .ok "hello".toList
  asrWav2vec2 := fun _ _ => .error "boom".toList
  asrVosk := fun _ _ => .ok []
  device := "cpu".toList
  metadata := none
  renderPlot := fun _ => .ok "PLOT".toList

/-- A concrete metadata row of condition "near" whose `distance_m` cell does
not parse as a float. -/
def rowNear : MetaRow :=
  { idx := 7, utt_id := "p1".toList, relpath := "a.wav".toList,
    condition := "near".toList, text := [], distance_m := some (.error ()) }

/-- A concrete metadata table with exactly the three required columns and one
row. -/
def dfNear : DataFrame :=
  { columns := ["relpath".toList, "utt_id".toList, "condition".toList],
    rows := [rowNear] }

/-- `sampleEnv` with `dfNear` as its parsed metadata. -/
def envNear : Env := { sampleEnv with metadata := some dfNear }

theorem lev_self [DecidableEq α] (l : List α) : lev l l = 0 := by
  induction l with
  | nil => simp [lev]
  | cons x xs ih => simp [lev, ih]

theorem splitWs_nil : splitWs ([] : Str) = [] := rfl

/-- C2: `cer` and `wer` normalize both texts (lowercase, strip, collapse
whitespace runs); an empty normalized reference yields 0.0 for both metrics
regardless of the hypothesis; otherwise each is the edit distance between the
normalized character (resp. whitespace-split word) sequences divided by
`max(1, reference length)`; in particular both metrics vanish when hypothesis
equals reference. -/
theorem cer_wer_spec (ref hyp : Str) :
    (normalize ref = [] → cer ref hyp = 0 ∧ wer ref hyp = 0)
    ∧ (normalize ref ≠ [] →
        cer ref hyp =
          (lev (normalize ref) (normalize hyp) : ℚ)
            / ((max 1 (normalize ref).length : ℕ) : ℚ))
    ∧ (splitWs (normalize ref) ≠ [] →
        wer ref hyp =
          (lev (splitWs (normalize ref)) (splitWs (normalize hyp)) : ℚ)
            / ((max 1 (splitWs (normalize ref)).length : ℕ) : ℚ))
    ∧ cer ref ref = 0 ∧ wer ref ref = 0 := by
  refine ⟨?_, ?_, ?_, ?_, ?_⟩
  · intro h
    refine ⟨by simp [cer, h], ?_⟩
    have hw : splitWs (normalize ref) = [] := by rw [h]; rfl
    simp [wer, hw]
  · intro h; simp [cer, h]
  · intro h; simp [wer, h]
  · by_cases h : normalize ref = [] <;> simp [cer, h, lev_self]
  · by_cases h : splitWs (normalize ref) = [] <;> simp [wer, h, lev_self]

/-- C2 witness: concrete instances of `cer_wer_spec` — empty reference with a
nonempty hypothesis, and a self-comparison. -/
theorem cer_wer_spec_witness :
    cer [] "abc".toList = 0 ∧ wer [] "abc".toList = 0
      ∧ cer "Hello  World".toList "Hello  World".toList = 0
      ∧ wer "Hello  World".toList "Hello  World".toList = 0 := by
  obtain ⟨h1, -, -, -, -⟩ := cer_wer_spec [] "abc".toList
  obtain ⟨he1, he2⟩ := h1 (by decide)
  obtain ⟨-, -, -, h4, h5⟩ :=
    cer_wer_spec "Hello  World".toList "Hello  World".toList
  exact ⟨he1, he2, h4, h5⟩

theorem except_bind_ok {ε α β : Type} (x : Except ε α) (f : α → Except ε β)
    (b : β) (h : (x >>= f) = .ok b) : ∃ a, x = .ok a ∧ f a = .ok b := by
  cases x with
  | ok a => exact ⟨a, rfl, h⟩
  | error e => exact absurd h (by simp [Bind.bind, Except.bind])

theorem apply_eq_filter_length (env : Env) (y : List ℚ) (l h g : ℚ)
    (y' : List ℚ) (hok : apply_eq_filter env y l h g = .ok y') :
    y'.length = y.length := by
  unfold apply_eq_filter at hok
  obtain ⟨ba, -, hok⟩ := except_bind_ok _ _ _ hok
  obtain ⟨f, -, hok⟩ := except_bind_ok _ _ _ hok
  split at hok
  · next hlen =>
    simp only [Pure.pure, Except.pure, Except.ok.injEq] at hok
    subst hok
    simp [hlen]
  · exact absurd hok (by simp)

theorem apply_eq_length (env : Env) (y : List ℚ) (mode : Str) (y' : List ℚ)
    (hok : apply_eq env y mode = .ok y') : y'.length = y.length := by
  unfold apply_eq at hok
  split at hok
  · obtain ⟨y1, h1, hok⟩ := except_bind_ok _ _ _ hok
    exact (apply_eq_filter_length _ _ _ _ _ _ hok).trans
      (apply_eq_filter_length _ _ _ _ _ _ h1)
  · split at hok
    · obtain ⟨y1, h1, hok⟩ := except_bind_ok _ _ _ hok
      exact (apply_eq_filter_length _ _ _ _ _ _ hok).trans
        (apply_eq_filter_length _ _ _ _ _ _ h1)
    · split at hok
      · obtain ⟨y1, h1, hok⟩ := except_bind_ok _ _ _ hok
        exact (apply_eq_filter_length _ _ _ _ _ _ hok).trans
          (apply_eq_filter_length _ _ _ _ _ _ h1)
      · split at hok
        · obtain ⟨y1, h1, hok⟩ := except_bind_ok _ _ _ hok
          exact (apply_eq_filter_length _ _ _ _ _ _ hok).trans
            (apply_eq_filter_length _ _ _ _ _ _ h1)
        · simp only [Pure.pure, Except.pure, Except.ok.injEq] at hok
          subst hok
          rfl

/-- C9: applying the equalizer with profile "none" or any unrecognized name
returns the input unchanged sample-for-sample; for every profile (in
particular the recognized rock/pop/jazz/classic) a successful application
yields an output of the input's length.  The sample rate is carried outside
the waveform value and `apply_eq` does not receive it; the embedding is a
pure function, mirroring that the Python code allocates a new array and never
writes to its input. -/
theorem apply_eq_spec (env : Env) (y : List ℚ) (mode : Str) :
    (mode ≠ "rock".toList → mode ≠ "pop".toList → mode ≠ "jazz".toList →
      mode ≠ "classic".toList → apply_eq env y mode = .ok y)
    ∧ ∀ y', apply_eq env y mode = .ok y' → y'.length = y.length := by
  constructor
  · intro h1 h2 h3 h4
    unfold apply_eq
    rw [if_neg h1, if_neg h2, if_neg h3, if_neg h4]
    rfl
  · intro y' hok
    exact apply_eq_length env y mode y' hok

set_option maxRecDepth 4000 in
/-- C9 witness: in the identity-filter environment, "none" is the identity on
the waveform [1, 2], and the "rock" profile output [51/20, 51/10] has the
input's length. -/
theorem apply_eq_spec_witness :
    apply_eq sampleEnv [1, 2] "none".toList = .ok ([1, 2] : List ℚ)
      ∧ ([51/20, 51/10] : List ℚ).length = ([1, 2] : List ℚ).length := by
  refine ⟨(apply_eq_spec sampleEnv [1, 2] "none".toList).1
      (by decide) (by decide) (by decide) (by decide), ?_⟩
  refine (apply_eq_spec sampleEnv [1, 2] "rock".toList).2 [51/20, 51/10] ?_
  show apply_eq sampleEnv [1, 2] "rock".toList = .ok [51/20, 51/10]
  rw [show apply_eq sampleEnv [1, 2] "rock".toList
      = .ok (List.zipWith (fun a b => a + 5/10 * b)
          (List.zipWith (fun a b => a + 7/10 * b) [1, 2] [1, 2])
          (List.zipWith (fun a b => a + 7/10 * b) [1, 2] [1, 2])) from rfl]
  simp only [List.zipWith]
  norm_num

theorem silence_ne_nil : (silence : List ℚ) ≠ [] := by
  intro hs
  have h := congrArg List.length hs
  rw [silence, List.length_replicate] at h
  exact absurd h (by norm_num [TARGET_SR])

/-- C3: for every outcome of reading, decoding and resampling, `load_audio`
returns a waveform whose sample rate is the fixed target 16000 and whose
sample list is non-empty (the resample oracle is assumed to keep non-empty
input non-empty, which is librosa's documented behaviour); on read/decode
failure it logs the failure and substitutes one second of silence instead of
propagating an error. -/
theorem load_audio_spec (env : Env) (path : Str) (logs : List Str)
    (hres : ∀ y sr y2, y ≠ [] → env.resample y sr = .ok y2 → y2 ≠ []) :
    ((load_audio env path logs).1.2 = TARGET_SR
      ∧ (load_audio env path logs).1.1 ≠ [])
    ∧ (∀ ex, env.sfRead path = .error ex →
        (load_audio env path logs).1.1 = silence
          ∧ (load_audio env path logs).2
              = logs ++ ["[load_audio] failed: ".toList ++ path
                           ++ " -> ".toList ++ ex]) := by
  constructor
  · simp only [load_audio]
    have hy : (if (readStage env path logs).1.1 = [] then silence
        else (readStage env path logs).1.1) ≠ [] := by
      split
      · exact silence_ne_nil
      · next hne => exact hne
    split
    · next hsr =>
      split
      · next y2 hrs => exact ⟨rfl, hres _ _ _ hy hrs⟩
      · next ex hrs => exact ⟨rfl, silence_ne_nil⟩
    · next hsr =>
      push_neg at hsr
      exact ⟨hsr, hy⟩
  · intro ex hex
    simp only [load_audio, readStage, hex]
    rw [if_neg (by simp)]
    exact ⟨by rw [if_neg silence_ne_nil], rfl⟩

/-- C3 witness: in `sampleEnv` every read fails and resampling is the
identity; `load_audio` still returns the one-second silence waveform at
16000 and appends the failure log entry. -/
theorem load_audio_spec_witness :
    (load_audio sampleEnv "a.wav".toList []).1.2 = TARGET_SR
      ∧ (load_audio sampleEnv "a.wav".toList []).1.1 = silence
      ∧ (load_audio sampleEnv "a.wav".toList []).2
          = ["[load_audio] failed: ".toList ++ "a.wav".toList
               ++ " -> ".toList ++ "No such file or directory".toList] := by
  have hres : ∀ y sr y2, y ≠ [] → sampleEnv.resample y sr = .ok y2 → y2 ≠ [] := by
    intro y sr y2 hy hok
    have hyy : y = y2 := by simpa [sampleEnv] using hok
    exact hyy ▸ hy
  obtain ⟨⟨h1, -⟩, h2⟩ := load_audio_spec sampleEnv "a.wav".toList [] hres
  obtain ⟨h3, h4⟩ := h2 _ rfl
  exact ⟨h1, h3, by simpa using h4⟩

/-- C7 counterexample: on the empty waveform `rms` yields NaN — `np.mean` of
an empty array is NaN and propagates through the square root — not the 0.0
the claim states. -/
theorem rms_empty_nan :
    rms sampleEnv [] = NF.nan ∧ rms sampleEnv [] ≠ NF.fin 0 := by
  refine ⟨rfl, ?_⟩
  intro h
  rw [show rms sampleEnv [] = NF.nan from rfl] at h
  exact absurd h (by simp)

/-- C7 amended: for degenerate (empty) waveform input, `spectral_features`
returns centroid 0.0 and rolloff 0.0 without failing, while `rms` yields NaN
rather than 0.0 (its `np.mean` has no empty-input guard). -/
theorem features_empty (env : Env) (sr : Nat) :
    spectral_features env [] sr = (NF.fin 0, NF.fin 0) ∧ rms env [] = NF.nan :=
  ⟨rfl, rfl⟩

theorem readStage_logs (env : Env) (path : Str) (logs : List Str) :
    readStage env path logs
      = ((readStage env path []).1, logs ++ (readStage env path []).2) := by
  unfold readStage
  cases h : env.sfRead path with
  | ok p => obtain ⟨d, sr0⟩ := p; simp
  | error ex => simp

theorem load_audio_logs (env : Env) (path : Str) (logs : List Str) :
    load_audio env path logs
      = ((load_audio env path []).1, logs ++ (load_audio env path []).2) := by
  simp only [load_audio]
  rw [readStage_logs env path logs]
  obtain ⟨⟨y0, sr⟩, lg⟩ := readStage env path []
  simp only []
  split
  · cases hr : env.resample (if y0 = [] then silence else y0) sr with
    | ok y2 => simp
    | error ex => simp
  · simp

theorem eqStage_logs (env : Env) (eq_mode : Str) (do_eq : Bool) (utt_id : Str)
    (y : List ℚ) (logs : List Str) :
    eqStage env eq_mode do_eq utt_id y logs
      = ((eqStage env eq_mode do_eq utt_id y []).1,
         logs ++ (eqStage env eq_mode do_eq utt_id y []).2) := by
  unfold eqStage
  split
  · cases h : apply_eq env y eq_mode with
    | ok y2 => simp
    | error ex => simp
  · simp

theorem asrStage_logs (env : Env) (asr_backend utt_id : Str) (y : List ℚ)
    (sr : Nat) (logs : List Str) :
    asrStage env asr_backend utt_id y sr logs
      = ((asrStage env asr_backend utt_id y sr []).1,
         logs ++ (asrStage env asr_backend utt_id y sr []).2) := by
  unfold asrStage
  split
  · cases h : env.asrWhisper y sr with
    | ok t => simp
    | error ex => simp
  · split
    · cases h : env.asrWav2vec2 y sr with
      | ok t => simp
      | error ex => simp
    · split
      · cases h : env.asrVosk y sr with
        | ok t => simp
        | error ex => simp
      · simp

theorem processRow_logs (env : Env) (data_root : Str) (refs : Str → Str)
    (asr_backend eq_mode : Str) (do_eq : Bool) (r : MetaRow) (logs : List Str) :
    processRow env data_root refs asr_backend eq_mode do_eq r logs
      = ((processRow env data_root refs asr_backend eq_mode do_eq r []).1,
         logs ++ (processRow env data_root refs asr_backend eq_mode do_eq r []).2) := by
  simp only [processRow]
  rw [load_audio_logs env (joinPath data_root r.relpath) logs]
  generalize load_audio env (joinPath data_root r.relpath) [] = la
  obtain ⟨⟨y0, sr0⟩, l0⟩ := la
  dsimp only
  rw [eqStage_logs env eq_mode do_eq r.utt_id y0 (logs ++ l0),
    eqStage_logs env eq_mode do_eq r.utt_id y0 l0]
  generalize eqStage env eq_mode do_eq r.utt_id y0 [] = eq0
  obtain ⟨y1, l1⟩ := eq0
  dsimp only
  rw [asrStage_logs env asr_backend r.utt_id y1 sr0 (logs ++ l0 ++ l1),
    asrStage_logs env asr_backend r.utt_id y1 sr0 (l0 ++ l1)]
  generalize asrStage env asr_backend r.utt_id y1 sr0 [] = ar0
  obtain ⟨t1, l2⟩ := ar0
  simp [List.append_assoc]

theorem foldl_processRow (env : Env) (data_root : Str) (refs : Str → Str)
    (asr_backend eq_mode : Str) (do_eq : Bool) :
    ∀ (rows : List MetaRow) (acc : List ERowRaw) (logs : List Str),
      (rows.foldl
        (fun (acc : List ERowRaw × List Str) r =>
          ((acc.1 ++
              [(processRow env data_root refs asr_backend eq_mode
                  do_eq r acc.2).1]),
           (processRow env data_root refs asr_backend eq_mode
              do_eq r acc.2).2))
        (acc, logs)).1
      = acc ++ rows.map
          (fun r => (processRow env data_root refs asr_backend eq_mode
              do_eq r []).1)
  | [], acc, logs => by simp
  | r :: rest, acc, logs => by
    simp only [List.foldl_cons, List.map_cons]
    rw [foldl_processRow env data_root refs asr_backend eq_mode do_eq rest _ _]
    rw [processRow_logs env data_root refs asr_backend eq_mode do_eq r logs]
    simp

/-- The shape of a successful nonempty-selection run: `run_evaluation` returns
the report whose `detailedResults` are the per-row records of the selected
rows, in order, with the summary computed from them; no `error` field. -/
theorem run_evaluation_nonempty (env : Env) (asr_backend data_root eq_mode : Str)
    (do_eq : Bool) (condition : Str) (df : DataFrame)
    (hm : env.metadata = some df)
    (h1 : "relpath".toList ∈ df.columns) (h2 : "utt_id".toList ∈ df.columns)
    (h3 : "condition".toList ∈ df.columns)
    (hne : (df.rows.filter (fun r => decide (r.condition = condition))).length ≠ 0) :
    (run_evaluation env asr_backend data_root eq_mode do_eq condition).detailed
      = some ((df.rows.filter (fun r => decide (r.condition = condition))).map
          (fun r => fillRow (processRow env data_root (refsFun df) asr_backend
              eq_mode do_eq r []).1))
    ∧ (run_evaluation env asr_backend data_root eq_mode do_eq condition).summaryOf
      = some (summarize
          ((df.rows.filter (fun r => decide (r.condition = condition))).map
            (fun r => fillRow (processRow env data_root (refsFun df) asr_backend
                eq_mode do_eq r []).1)))
    ∧ (run_evaluation env asr_backend data_root eq_mode do_eq condition).backendOf
      = some asr_backend
    ∧ (run_evaluation env asr_backend data_root eq_mode do_eq condition).errorOf
      = none := by
  simp only [run_evaluation, hm]
  rw [if_neg (by push_neg; exact ⟨h1, h2, h3⟩)]
  rw [if_neg hne]
  rw [foldl_processRow env data_root (refsFun df) asr_backend eq_mode do_eq _ [] _]
  simp [RunResult.detailed, RunResult.summaryOf, RunResult.backendOf,
    RunResult.errorOf, List.map_map, Function.comp]
  rfl

/-- C5: a missing metadata source, or a metadata table lacking any of the
required columns relpath/utt_id/condition, makes `run_evaluation` return —
not raise — the `{error, logs}` response, which has no detailedResults,
summary or plotData fields. -/
theorem setup_error_response (env : Env) (asr_backend data_root eq_mode : Str)
    (do_eq : Bool) (condition : Str)
    (hbad : env.metadata = none
      ∨ ∃ df, env.metadata = some df
          ∧ ("relpath".toList ∉ df.columns ∨ "utt_id".toList ∉ df.columns
              ∨ "condition".toList ∉ df.columns)) :
    ((run_evaluation env asr_backend data_root eq_mode do_eq condition).errorOf.isSome
        = true)
    ∧ (run_evaluation env asr_backend data_root eq_mode do_eq condition).detailed
        = none
    ∧ (run_evaluation env asr_backend data_root eq_mode do_eq condition).summaryOf
        = none
    ∧ (run_evaluation env asr_backend data_root eq_mode do_eq condition).plotOf
        = none := by
  rcases hbad with hnone | ⟨df, hsome, hcols⟩
  · simp [run_evaluation, hnone, RunResult.errorOf, RunResult.detailed,
      RunResult.summaryOf, RunResult.plotOf]
  · simp only [run_evaluation, hsome]
    rw [if_pos hcols]
    simp [RunResult.errorOf, RunResult.detailed, RunResult.summaryOf,
      RunResult.plotOf]

/-- C5 witness: `sampleEnv` has no readable metadata; the run reports the
error response with none of the report fields. -/
theorem setup_error_response_witness :
    ((run_evaluation sampleEnv "whisper".toList "root".toList "none".toList
        false "speaker_3m".toList).errorOf.isSome = true)
    ∧ (run_evaluation sampleEnv "whisper".toList "root".toList "none".toList
        false "speaker_3m".toList).detailed = none
    ∧ (run_evaluation sampleEnv "whisper".toList "root".toList "none".toList
        false "speaker_3m".toList).summaryOf = none
    ∧ (run_evaluation sampleEnv "whisper".toList "root".toList "none".toList
        false "speaker_3m".toList).plotOf = none :=
  setup_error_response sampleEnv "whisper".toList "root".toList "none".toList
    false "speaker_3m".toList (Or.inl rfl)

/-- C4: a requested condition matching zero metadata rows yields a well-formed
report: empty detailedResults, empty summary, empty plotData, the echoed
backend, a logs string, and no error field. -/
theorem empty_selection_report (env : Env) (asr_backend data_root eq_mode : Str)
    (do_eq : Bool) (condition : Str) (df : DataFrame)
    (hm : env.metadata = some df)
    (h1 : "relpath".toList ∈ df.columns) (h2 : "utt_id".toList ∈ df.columns)
    (h3 : "condition".toList ∈ df.columns)
    (hempty : df.rows.filter (fun r => decide (r.condition = condition)) = []) :
    ((run_evaluation env asr_backend data_root eq_mode do_eq condition).errorOf
        = none)
    ∧ (run_evaluation env asr_backend data_root eq_mode do_eq condition).detailed
        = some []
    ∧ (run_evaluation env asr_backend data_root eq_mode do_eq condition).summaryOf
        = some []
    ∧ (run_evaluation env asr_backend data_root eq_mode do_eq condition).plotOf
        = some []
    ∧ (run_evaluation env asr_backend data_root eq_mode do_eq condition).backendOf
        = some asr_backend := by
  simp only [run_evaluation, hm]
  rw [if_neg (by push_neg; exact ⟨h1, h2, h3⟩)]
  rw [if_pos (by rw [hempty]; rfl)]
  simp [RunResult.errorOf, RunResult.detailed, RunResult.summaryOf,
    RunResult.plotOf, RunResult.backendOf]

/-- C4 witness: `envNear` has one metadata row of condition "near"; selecting
condition "far" matches zero rows and yields the empty, errorless report. -/
theorem empty_selection_report_witness :
    ((run_evaluation envNear "whisper".toList "root".toList "none".toList
        false "far".toList).errorOf = none)
    ∧ (run_evaluation envNear "whisper".toList "root".toList "none".toList
        false "far".toList).detailed = some []
    ∧ (run_evaluation envNear "whisper".toList "root".toList "none".toList
        false "far".toList).summaryOf = some []
    ∧ (run_evaluation envNear "whisper".toList "root".toList "none".toList
        false "far".toList).plotOf = some []
    ∧ (run_evaluation envNear "whisper".toList "root".toList "none".toList
        false "far".toList).backendOf = some "whisper".toList :=
  empty_selection_report envNear "whisper".toList "root".toList "none".toList
    false "far".toList dfNear rfl (by decide) (by decide) (by decide) rfl

theorem load_audio_readfail (env : Env) (path : Str) (logs : List Str) (ex : Str)
    (hex : env.sfRead path = .error ex) :
    (load_audio env path logs).1.1 = silence
    ∧ (load_audio env path logs).2
        = logs ++ ["[load_audio] failed: ".toList ++ path ++ " -> ".toList ++ ex] := by
  simp only [load_audio, readStage, hex]
  rw [if_neg (by simp)]
  exact ⟨by rw [if_neg silence_ne_nil], rfl⟩

theorem asrStage_unknown (env : Env) (asr_backend utt_id : Str) (y : List ℚ)
    (sr : Nat) (logs : List Str)
    (hb1 : asr_backend ≠ "whisper".toList) (hb2 : asr_backend ≠ "wav2vec2".toList)
    (hb3 : asr_backend ≠ "vosk".toList) :
    asrStage env asr_backend utt_id y sr logs
      = ([], logs ++ ["[ASR] Unknown backend: ".toList ++ asr_backend]) := by
  unfold asrStage
  rw [if_neg hb1, if_neg hb2, if_neg hb3]

theorem eqStage_fail (env : Env) (eq_mode : Str) (do_eq : Bool) (utt_id : Str)
    (y : List ℚ) (logs : List Str) (ex : Str)
    (hcond : do_eq ∧ eq_mode ≠ [] ∧ eq_mode ≠ "none".toList)
    (heq : apply_eq env y eq_mode = .error ex) :
    eqStage env eq_mode do_eq utt_id y logs
      = (y, logs ++ ["[EQ] failed for ".toList ++ utt_id ++ ": ".toList ++ ex]) := by
  unfold eqStage
  rw [if_pos hcond, heq]

/-- C6: every EvaluationRow of a returned report has only finite rational
numeric fields: the report rows are the `fillna(0.0)` images of the raw rows,
`fillna` maps every NaN field (RMS, centroid, rolloff, distance) to 0.0, and
an absent or unparseable `distance_m` cell already defaults to 0.0 in the raw
row. -/
theorem numeric_defaults (env : Env) (asr_backend data_root eq_mode : Str)
    (do_eq : Bool) (condition : Str) (df : DataFrame)
    (hm : env.metadata = some df)
    (h1 : "relpath".toList ∈ df.columns) (h2 : "utt_id".toList ∈ df.columns)
    (h3 : "condition".toList ∈ df.columns)
    (hne : (df.rows.filter (fun r => decide (r.condition = condition))).length ≠ 0) :
    ((run_evaluation env asr_backend data_root eq_mode do_eq condition).detailed
      = some ((df.rows.filter (fun r => decide (r.condition = condition))).map
          (fun r => fillRow (processRow env data_root (refsFun df) asr_backend
              eq_mode do_eq r []).1)))
    ∧ (∀ raw : ERowRaw,
        (raw.RMS = NF.nan → (fillRow raw).RMS = 0)
        ∧ (raw.centroid = NF.nan → (fillRow raw).centroid = 0)
        ∧ (raw.rolloff = NF.nan → (fillRow raw).rolloff = 0)
        ∧ (raw.distance_m = NF.nan → (fillRow raw).distance_m = 0))
    ∧ (∀ r : MetaRow,
        r.distance_m = none ∨ r.distance_m = some (.error ()) →
        (processRow env data_root (refsFun df) asr_backend eq_mode
            do_eq r []).1.distance_m = NF.fin 0) := by
  refine ⟨(run_evaluation_nonempty env asr_backend data_root eq_mode do_eq
      condition df hm h1 h2 h3 hne).1, ?_, ?_⟩
  · intro raw
    refine ⟨?_, ?_, ?_, ?_⟩ <;> intro hnan <;> simp [fillRow, hnan, NF.fillna0]
  · intro r hr
    have : (processRow env data_root (refsFun df) asr_backend eq_mode
        do_eq r []).1.distance_m = distOf r := rfl
    rw [this]
    rcases hr with h | h <;> simp [distOf, h]

/-- C6 witness: the concrete metadata row `rowNear` has an unparseable
distance cell, which becomes exactly 0.0; and `fillna(0.0)` turns a NaN RMS
field into 0.0. -/
theorem numeric_defaults_witness :
    ((processRow envNear "root".toList (refsFun dfNear) "whisper".toList
        "none".toList false rowNear []).1.distance_m = NF.fin 0)
    ∧ (fillRow
        { utt_id := "u".toList, distance_m := NF.nan, CER := 0, WER := 0,
          RMS := NF.nan, centroid := NF.nan, rolloff := NF.nan }).RMS = 0 := by
  obtain ⟨-, hfill, hdist⟩ := numeric_defaults envNear "whisper".toList
    "root".toList "none".toList false "near".toList dfNear rfl
    (by decide) (by decide) (by decide) (by decide)
  refine ⟨hdist rowNear (Or.inr rfl), ?_⟩
  exact (hfill ⟨"u".toList, NF.nan, 0, 0, NF.nan, NF.nan, NF.nan⟩).1 rfl

/-- C1: per-row fault isolation.  With a nonempty selection the run returns
the report — never an error — with exactly one EvaluationRow per selected
metadata row, in order, whatever the per-row oracles do; an audio decode
failure is caught and logged; an EQ failure is caught and logged and the
unfiltered waveform is used (witnessed by the row's RMS); an unrecognized
backend id is caught and logged and the hypothesis defaults to "" (witnessed
by the row's CER/WER being scored against the empty hypothesis). -/
theorem fault_isolation (env : Env) (asr_backend data_root eq_mode : Str)
    (do_eq : Bool) (condition : Str) (df : DataFrame)
    (hm : env.metadata = some df)
    (h1 : "relpath".toList ∈ df.columns) (h2 : "utt_id".toList ∈ df.columns)
    (h3 : "condition".toList ∈ df.columns)
    (hne : (df.rows.filter (fun r => decide (r.condition = condition))).length ≠ 0) :
    ((run_evaluation env asr_backend data_root eq_mode do_eq condition).detailed
      = some ((df.rows.filter (fun r => decide (r.condition = condition))).map
          (fun r => fillRow (processRow env data_root (refsFun df) asr_backend
              eq_mode do_eq r []).1)))
    ∧ (Option.map List.length
        (run_evaluation env asr_backend data_root eq_mode do_eq condition).detailed
      = some (df.rows.filter (fun r => decide (r.condition = condition))).length)
    ∧ ((run_evaluation env asr_backend data_root eq_mode do_eq condition).errorOf
      = none)
    ∧ (asr_backend ≠ "whisper".toList → asr_backend ≠ "wav2vec2".toList →
        asr_backend ≠ "vosk".toList →
        ∀ r : MetaRow,
          ((processRow env data_root (refsFun df) asr_backend eq_mode
              do_eq r []).1.CER = cer (refsFun df r.utt_id) [])
          ∧ ((processRow env data_root (refsFun df) asr_backend eq_mode
              do_eq r []).1.WER = wer (refsFun df r.utt_id) [])
          ∧ ("[ASR] Unknown backend: ".toList ++ asr_backend)
              ∈ (processRow env data_root (refsFun df) asr_backend eq_mode
                  do_eq r []).2)
    ∧ (∀ (r : MetaRow) (ex : Str),
        env.sfRead (joinPath data_root r.relpath) = .error ex →
        ("[load_audio] failed: ".toList ++ joinPath data_root r.relpath
            ++ " -> ".toList ++ ex)
          ∈ (processRow env data_root (refsFun df) asr_backend eq_mode
              do_eq r []).2)
    ∧ (∀ (r : MetaRow) (ex : Str),
        (do_eq ∧ eq_mode ≠ [] ∧ eq_mode ≠ "none".toList) →
        apply_eq env (load_audio env (joinPath data_root r.relpath) []).1.1
            eq_mode = .error ex →
        ((processRow env data_root (refsFun df) asr_backend eq_mode
            do_eq r []).1.RMS
          = rms env (load_audio env (joinPath data_root r.relpath) []).1.1)
        ∧ ("[EQ] failed for ".toList ++ r.utt_id ++ ": ".toList ++ ex)
            ∈ (processRow env data_root (refsFun df) asr_backend eq_mode
                do_eq r []).2) := by
  obtain ⟨hdet, -, -, herr⟩ := run_evaluation_nonempty env asr_backend data_root
    eq_mode do_eq condition df hm h1 h2 h3 hne
  refine ⟨hdet, ?_, herr, ?_, ?_, ?_⟩
  · rw [hdet]
    simp
  · intro hb1 hb2 hb3 r
    simp only [processRow]
    rw [asrStage_unknown env asr_backend r.utt_id _ _ _ hb1 hb2 hb3]
    exact ⟨rfl, rfl, by simp⟩
  · intro r ex hex
    simp only [processRow]
    obtain ⟨-, hlog⟩ := load_audio_readfail env (joinPath data_root r.relpath) [] ex hex
    rw [eqStage_logs, asrStage_logs]
    rw [hlog]
    simp
  · intro r ex hcond heq
    simp only [processRow]
    rw [eqStage_fail env eq_mode do_eq r.utt_id _ _ ex hcond heq]
    rw [asrStage_logs]
    exact ⟨rfl, by simp⟩

/-- C1 witness: a one-row metadata table, a failing audio read and an unknown
backend id still produce a report with one EvaluationRow and no error, whose
CER is scored against the defaulted empty hypothesis. -/
theorem fault_isolation_witness :
    (Option.map List.length
      (run_evaluation envNear "nobackend".toList "root".toList "none".toList
          false "near".toList).detailed = some 1)
    ∧ ((run_evaluation envNear "nobackend".toList "root".toList "none".toList
          false "near".toList).errorOf = none)
    ∧ ((processRow envNear "root".toList (refsFun dfNear) "nobackend".toList
          "none".toList false rowNear []).1.CER
        = cer (refsFun dfNear rowNear.utt_id) [])
    ∧ ("[load_audio] failed: ".toList ++ joinPath "root".toList rowNear.relpath
          ++ " -> ".toList ++ "No such file or directory".toList)
        ∈ (processRow envNear "root".toList (refsFun dfNear) "nobackend".toList
            "none".toList false rowNear []).2 := by
  obtain ⟨-, hlen, herr, hunk, hload, -⟩ := fault_isolation envNear
    "nobackend".toList "root".toList "none".toList false "near".toList dfNear
    rfl (by decide) (by decide) (by decide) (by decide)
  refine ⟨?_, herr, (hunk (by decide) (by decide) (by decide) rowNear).1, ?_⟩
  · rw [hlen]
    exact congrArg some (by decide)
  · exact hload rowNear "No such file or directory".toList rfl

/-- C10: the `utt_id` of every reported EvaluationRow is the metadata
`utt_id` with an underscore and the row's dataframe index appended
("utt_id_idx"), and therefore never equals the metadata `utt_id` verbatim. -/
theorem utt_id_suffixed (env : Env) (data_root : Str) (refs : Str → Str)
    (asr_backend eq_mode : Str) (do_eq : Bool) (r : MetaRow) (logs : List Str)
    (condition : Str) (df : DataFrame)
    (hm : env.metadata = some df)
    (h1 : "relpath".toList ∈ df.columns) (h2 : "utt_id".toList ∈ df.columns)
    (h3 : "condition".toList ∈ df.columns)
    (hne : (df.rows.filter (fun r2 => decide (r2.condition = condition))).length ≠ 0) :
    ((processRow env data_root refs asr_backend eq_mode do_eq r logs).1.utt_id
        = r.utt_id ++ "_".toList ++ (Nat.repr r.idx).toList)
    ∧ ((processRow env data_root refs asr_backend eq_mode do_eq r logs).1.utt_id
        ≠ r.utt_id)
    ∧ ∀ det,
        (run_evaluation env asr_backend data_root eq_mode do_eq condition).detailed
          = some det →
        ∀ e ∈ det, ∃ m,
          m ∈ df.rows.filter (fun r2 => decide (r2.condition = condition))
          ∧ e.utt_id = m.utt_id ++ "_".toList ++ (Nat.repr m.idx).toList
          ∧ e.utt_id ≠ m.utt_id := by
  have key : ∀ (refs2 : Str → Str) (r2 : MetaRow) (logs2 : List Str),
      (processRow env data_root refs2 asr_backend eq_mode do_eq r2 logs2).1.utt_id
        = r2.utt_id ++ "_".toList ++ (Nat.repr r2.idx).toList :=
    fun _ _ _ => rfl
  have hneq : ∀ u t : Str, u ++ "_".toList ++ t ≠ u := by
    intro u t h
    have hlen := congrArg List.length h
    simp [List.length_append] at hlen
  refine ⟨key refs r logs, by rw [key]; exact hneq _ _, ?_⟩
  intro det hdet e he
  obtain ⟨hdet', -, -, -⟩ := run_evaluation_nonempty env asr_backend data_root
    eq_mode do_eq condition df hm h1 h2 h3 hne
  rw [hdet'] at hdet
  injection hdet with hdet
  subst hdet
  obtain ⟨m, hmem, rfl⟩ := List.mem_map.mp he
  refine ⟨m, hmem, key (refsFun df) m [], ?_⟩
  show (processRow env data_root (refsFun df) asr_backend eq_mode
      do_eq m []).1.utt_id ≠ m.utt_id
  rw [key]
  exact hneq _ _

/-- C10 witness: the metadata row `p1` with dataframe index 7 is reported as
`p1_7`, which differs from `p1`. -/
theorem utt_id_suffixed_witness :
    ((processRow envNear "root".toList (refsFun dfNear) "whisper".toList
        "none".toList false rowNear []).1.utt_id = "p1_7".toList)
    ∧ ((processRow envNear "root".toList (refsFun dfNear) "whisper".toList
        "none".toList false rowNear []).1.utt_id ≠ rowNear.utt_id) := by
  obtain ⟨ha, hb, -⟩ := utt_id_suffixed envNear "root".toList (refsFun dfNear)
    "whisper".toList "none".toList false rowNear [] "near".toList dfNear rfl
    (by decide) (by decide) (by decide) (by decide)
  refine ⟨?_, hb⟩
  rw [ha]
  decide

/-- C8: the summary groups the completed EvaluationRows by `distance_m`: the
run's summary is `summarize` of its detailedResults, the summary keys are the
distinct distances sorted ascending, and every summary row carries the
arithmetic mean of CER, WER, RMS, centroid and rolloff over its group; in
particular rows with distance_m {1, 1, 2} and CER {0.2, 0.4, 0.6} summarize
to exactly (1.0, mean 0.3) then (2.0, mean 0.6). -/
theorem summary_grouping (env : Env) (asr_backend data_root eq_mode : Str)
    (do_eq : Bool) (condition : Str) (df : DataFrame) (det : List ERow)
    (hm : env.metadata = some df)
    (h1 : "relpath".toList ∈ df.columns) (h2 : "utt_id".toList ∈ df.columns)
    (h3 : "condition".toList ∈ df.columns)
    (hne : (df.rows.filter (fun r => decide (r.condition = condition))).length ≠ 0) :
    ((run_evaluation env asr_backend data_root eq_mode do_eq condition).summaryOf
      = some (summarize
          ((df.rows.filter (fun r => decide (r.condition = condition))).map
            (fun r => fillRow (processRow env data_root (refsFun df) asr_backend
                eq_mode do_eq r []).1))))
    ∧ ((summarize det).map (fun s => s.distance_m)
        = List.insertionSort (· ≤ ·) ((det.map (fun e => e.distance_m)).dedup))
    ∧ List.Sorted (· ≤ ·) ((summarize det).map (fun s => s.distance_m))
    ∧ ((summarize det).map (fun s => s.distance_m)).Perm
        ((det.map (fun e => e.distance_m)).dedup)
    ∧ (∀ s ∈ summarize det,
        s.CER = meanQ ((det.filter
            (fun e => decide (e.distance_m = s.distance_m))).map (fun e => e.CER))
        ∧ s.WER = meanQ ((det.filter
            (fun e => decide (e.distance_m = s.distance_m))).map (fun e => e.WER))
        ∧ s.RMS = meanQ ((det.filter
            (fun e => decide (e.distance_m = s.distance_m))).map (fun e => e.RMS))
        ∧ s.centroid = meanQ ((det.filter
            (fun e => decide (e.distance_m = s.distance_m))).map (fun e => e.centroid))
        ∧ s.rolloff = meanQ ((det.filter
            (fun e => decide (e.distance_m = s.distance_m))).map (fun e => e.rolloff)))
    ∧ summarize
        [⟨"a".toList, 1, 2/10, 0, 0, 0, 0⟩, ⟨"b".toList, 1, 4/10, 0, 0, 0, 0⟩,
         ⟨"c".toList, 2, 6/10, 0, 0, 0, 0⟩]
      = [⟨1, 3/10, 0, 0, 0, 0⟩, ⟨2, 6/10, 0, 0, 0, 0⟩] := by
  have hkeys : ∀ d : List ERow,
      (summarize d).map (fun s => s.distance_m)
        = List.insertionSort (· ≤ ·) ((d.map (fun e => e.distance_m)).dedup) := by
    intro d
    simp only [summarize, List.map_map]
    exact List.map_id _
  refine ⟨(run_evaluation_nonempty env asr_backend data_root eq_mode do_eq
      condition df hm h1 h2 h3 hne).2.1, hkeys det, ?_, ?_, ?_, ?_⟩
  · rw [hkeys det]
    exact List.sorted_insertionSort _ _
  · rw [hkeys det]
    exact List.perm_insertionSort _ _
  · intro s hs
    simp only [summarize, List.mem_map] at hs
    obtain ⟨d, -, rfl⟩ := hs
    exact ⟨rfl, rfl, rfl, rfl, rfl⟩
  · have hk : List.insertionSort (· ≤ ·)
        ((([⟨"a".toList, 1, 2/10, 0, 0, 0, 0⟩, ⟨"b".toList, 1, 4/10, 0, 0, 0, 0⟩,
            ⟨"c".toList, 2, 6/10, 0, 0, 0, 0⟩] : List ERow).map
          (fun e => e.distance_m)).dedup) = [1, 2] := by decide
    simp only [summarize]
    rw [hk]
    simp only [List.map_cons, List.map_nil]
    norm_num [List.filter, meanQ]

/-- C8 witness: the concrete three-row grouping instance, and the summary
field of a concrete one-row run. -/
theorem summary_grouping_witness :
    (summarize
        [⟨"a".toList, 1, 2/10, 0, 0, 0, 0⟩, ⟨"b".toList, 1, 4/10, 0, 0, 0, 0⟩,
         ⟨"c".toList, 2, 6/10, 0, 0, 0, 0⟩]
      = [⟨1, 3/10, 0, 0, 0, 0⟩, ⟨2, 6/10, 0, 0, 0, 0⟩])
    ∧ (run_evaluation envNear "whisper".toList "root".toList "none".toList false
        "near".toList).summaryOf
      = some (summarize ((dfNear.rows.filter
          (fun r => decide (r.condition = "near".toList))).map
          (fun r => fillRow (processRow envNear "root".toList (refsFun dfNear)
              "whisper".toList "none".toList false r []).1))) := by
  obtain ⟨hs, -, -, -, -, hconc⟩ := summary_grouping envNear "whisper".toList
    "root".toList "none".toList false "near".toList dfNear [] rfl
    (by decide) (by decide) (by decide) (by decide)
  exact ⟨hconc, hs⟩

end Evaluate
